import Mathlib

/-!
# Verification of the ProjectSuite path registry (`PathRegistry.py`)

Shallow embedding of the path-registry component of the ProjectSuite
repository.  Python dictionaries are modelled as association lists with
overwrite-in-place insertion (`dictInsert`), the filesystem as an explicit
record of existing directories and files, and every stateful method of
`PathRegistry` as a state-passing function on `RegState × FS`.
-/

set_option autoImplicit false

namespace PathReg

/-- Python `dict` model: association list where insertion overwrites the
first binding of the key in place and otherwise appends. -/
def dictInsert (k v : String) : List (String × String) → List (String × String)
  | [] => [(k, v)]
  | (k', v') :: rest => if k' = k then (k, v) :: rest else (k', v') :: dictInsert k v rest

/-- Python `dict.get` / `in` test: first binding of the key. -/
def dictLookup (k : String) : List (String × String) → Option String
  | [] => none
  | (k', v) :: rest => if k' = k then some v else dictLookup k rest

/-- Python `set.add` model on a list without duplicates. -/
def insertSet (x : String) (l : List String) : List String :=
  if x ∈ l then l else l ++ [x]

/-- The ambient OS environment: the user's home directory
(`os.path.expanduser("~")`). -/
structure Sys where
  home : String
  deriving Repr, DecidableEq

/-- Filesystem model: the set of existing directories, the existing files
with their text content (a list of lines), the paths on which `mkdir`
raises (permission errors, etc.), and the directories on which the
write-probe (`touch` + `unlink` of a sentinel file) succeeds. -/
structure FS where
  dirs : List String
  files : List (String × List String)
  denied : List String
  writable : List String
  deriving Repr, DecidableEq

def isDirB (fs : FS) (p : String) : Bool := fs.dirs.contains p

def isFileB (fs : FS) (p : String) : Bool := fs.files.any (fun e => e.1 == p)

/-- `os.path.exists` -/
def fsExistsB (fs : FS) (p : String) : Bool := isDirB fs p || isFileB fs p

/-- Content of an existing file, `None` when the file does not exist. -/
def getFile (fs : FS) (p : String) : Option (List String) :=
  (fs.files.find? (fun e => e.1 == p)).map (fun e => e.2)

/-- `Path(p).mkdir(parents=True, exist_ok=True)`: succeeds (possibly as a
no-op) unless the path is denied or already exists as a file. -/
def mkdirP (p : String) (fs : FS) : Option FS :=
  if fs.denied.contains p || isFileB fs p then none
  else some { fs with dirs := insertSet p fs.dirs }

/-- `Path(p).parent`, for the `/`-separated paths used throughout: the
prefix before the last `/`. -/
def parentDir (p : String) : String :=
  String.mk (((p.toList.reverse.dropWhile (fun c => !(c = '/'))).drop 1).reverse)

/-- Python `str.strip()`. -/
def strTrim (s : String) : String :=
  String.mk (((s.toList.dropWhile Char.isWhitespace).reverse.dropWhile
    Char.isWhitespace).reverse)

/-- Python `str.lower()`. -/
def strToLower (s : String) : String :=
  String.mk (s.toList.map Char.toLower)

/-- Python `str.endswith`. -/
def strEndsWith (s suffix : String) : Bool :=
  suffix.toList.isSuffixOf s.toList

/-- The mutable state of a `PathRegistry` instance: `_paths`,
`_user_paths`, `_config` (`None` until lazily loaded), `_settings_cache`
and `_app_base_path`. -/
structure RegState where
  paths : List (String × String)
  userPaths : List String
  config : Option (List (String × String))
  settingsCache : List (String × String)
  appBasePath : String
  deriving Repr, DecidableEq

/-- `PathRegistry.register_path`: stores the entry in `_paths`, records the
key in `_user_paths`, and for `*_DIR` / `*_FOLDER` keys eagerly attempts to
create the directory; a failure of that creation is caught and only
logged. -/
def register_path (key path : String) (st : RegState) (fs : FS) : RegState × FS :=
  let st' := { st with paths := dictInsert key path st.paths
                     , userPaths := insertSet key st.userPaths }
  if strEndsWith key "_DIR" || strEndsWith key "_FOLDER" then
    match mkdirP path fs with
    | some fs' => (st', fs')
    | none => (st', fs)
  else (st', fs)

/-- Split a character list at the first `=`. -/
def splitFirstEq : List Char → Option (List Char × List Char)
  | [] => none
  | c :: rest =>
    if c = '=' then some ([], rest)
    else
      match splitFirstEq rest with
      | some p => some (c :: p.1, p.2)
      | none => none

/-- `line.split('=', 1)` followed by stripping both halves; `None` models
the `ValueError` of unpacking when the line has no `=`. -/
def splitEq (line : String) : Option (String × String) :=
  match splitFirstEq line.toList with
  | some p => some (strTrim (String.mk p.1), strTrim (String.mk p.2))
  | none => none

/-- One line of `_load_config`'s parsing loop: skip blanks and `#`
comments, store `key = value` pairs, skip malformed lines. -/
def parseConfigLine (cfg : List (String × String)) (line : String) :
    List (String × String) :=
  let l := strTrim line
  if l.isEmpty || l.toList.head? == some '#' then cfg
  else match splitEq l with
    | some kv => dictInsert kv.1 kv.2 cfg
    | none => cfg

def parseConfigLines (lines : List String) : List (String × String) :=
  lines.foldl parseConfigLine []

/-- `PathRegistry._load_config`: return the settings cache when nonempty,
otherwise read the first existing `defaults.txt` candidate and cache it. -/
def load_config (sys : Sys) (st : RegState) (fs : FS) :
    List (String × String) × RegState :=
  if !st.settingsCache.isEmpty then (st.settingsCache, st)
  else
    match getFile fs (sys.home ++ "/Documents/ProjectSuite/defaults.txt") with
    | some lines =>
      let cfg := parseConfigLines lines
      (cfg, { st with settingsCache := cfg })
    | none =>
      match getFile fs (st.appBasePath ++ "/defaults.txt") with
      | some lines =>
        let cfg := parseConfigLines lines
        (cfg, { st with settingsCache := cfg })
      | none => ([], st)

/-- The `if not self._config: self._config = self._load_config()` step of
`get_custom_projects_path`: the Python truthiness test treats both `None`
and an empty dict as unset. -/
def loadedConfig (sys : Sys) (st : RegState) (fs : FS) :
    List (String × String) × RegState :=
  match st.config with
  | some c =>
    if c.isEmpty then
      let r := load_config sys st fs
      (r.1, { r.2 with config := some r.1 })
    else (c, st)
  | none =>
    let r := load_config sys st fs
    (r.1, { r.2 with config := some r.1 })

/-- `PathRegistry.get_custom_projects_path`: lazily load `_config`, then
return `custom_projects_dir` when it is nonempty and exists on disk. -/
def get_custom_projects_path (sys : Sys) (st : RegState) (fs : FS) :
    Option String × RegState :=
  match dictLookup "custom_projects_dir" (loadedConfig sys st fs).1 with
  | some cp =>
    if !cp.isEmpty && fsExistsB fs cp then (some cp, (loadedConfig sys st fs).2)
    else (none, (loadedConfig sys st fs).2)
  | none => (none, (loadedConfig sys st fs).2)

/-- The alias table declared inside `get_path`. -/
def aliasOf (key : String) : Option String :=
  if key = "PROJECTS_DIR" then some "OUTPUT_BASE_DIR"
  else if key = "OUTPUT_BASE_DIR" then some "PROJECTS_DIR"
  else none

def aliasLookup (key : String) (paths : List (String × String)) : Option String :=
  match aliasOf key with
  | some a => dictLookup a paths
  | none => none

/-- `PathRegistry.get_path`: (1) exact key in `_paths`; (2) for
`PROJECTS_DIR` / `OUTPUT_BASE_DIR`, the custom projects path from the
persisted settings, which is registered on success; (3) the alias's entry;
(4) the caller-supplied default. -/
def get_path (sys : Sys) (key : String) (default : Option String)
    (st : RegState) (fs : FS) : Option String × RegState × FS :=
  match dictLookup key st.paths with
  | some p => (some p, st, fs)
  | none =>
    if key = "PROJECTS_DIR" ∨ key = "OUTPUT_BASE_DIR" then
      match get_custom_projects_path sys st fs with
      | (some cp, st') =>
        let r := register_path key cp st' fs
        (some cp, r.1, r.2)
      | (none, st') =>
        match aliasLookup key st'.paths with
        | some p => (some p, st', fs)
        | none => (default, st', fs)
    else
      match aliasLookup key st.paths with
      | some p => (some p, st, fs)
      | none => (default, st, fs)

/-- `PathRegistry.get_all_paths`: the content of the returned copy of
`_paths` (the aliasing behaviour of the copy is modelled separately in the
heap model below). -/
def get_all_paths (st : RegState) : List (String × String) := st.paths

/-- `PathRegistry.ensure_directory`: resolve the key, succeed when the
path is already an existing directory, otherwise attempt to create it. -/
def ensure_directory (sys : Sys) (key : String) (st : RegState) (fs : FS) :
    Bool × RegState × FS :=
  let r := get_path sys key none st fs
  match r.1 with
  | none => (false, r.2.1, r.2.2)
  | some p =>
    if p.isEmpty then (false, r.2.1, r.2.2)
    else if fsExistsB r.2.2 p && isDirB r.2.2 p then (true, r.2.1, r.2.2)
    else match mkdirP p r.2.2 with
      | some fs' => (true, r.2.1, fs')
      | none => (false, r.2.1, r.2.2)

/-- The default entries registered by `_register_default_paths`, in source
order. -/
def defaultEntries (home appBase : String) : List (String × String) :=
  [("ROOT", appBase),
   ("USER_DATA_DIR", home ++ "/Documents/ProjectSuite"),
   ("LOGS_DIR", home ++ "/Documents/ProjectSuite/logs"),
   ("DATA_DIR", home ++ "/Documents/ProjectSuite"),
   ("EXPORTS_DIR", home ++ "/Documents/ProjectSuite/ProjectManager/data/exports"),
   ("TEMPLATES_DIR", home ++ "/Documents/ProjectSuite/ProjectManager/data/templates"),
   ("PROJECTS_DIR", home ++ "/Desktop/projects"),
   ("OUTPUT_BASE_DIR", home ++ "/Desktop/projects"),
   ("MASTER_DIR", home ++ "/Documents/ProjectSuite/ProjectManager/data/master"),
   ("TEMP_DIR", home ++ "/Documents/ProjectSuite/temp"),
   ("BACKUP_DIR", home ++ "/Documents/ProjectSuite/backup"),
   ("CPL_DIR", home ++ "/Documents/ProjectSuite/CreateProjectList"),
   ("CPL_CONFIG_DIR", home ++ "/Documents/ProjectSuite/CreateProjectList/config"),
   ("CPL_TEMP_DIR", home ++ "/Documents/ProjectSuite/CreateProjectList/temp"),
   ("CPL_TEMPLATES_DIR", home ++ "/Documents/ProjectSuite/CreateProjectList/templates"),
   ("CPL_CACHE_DIR", home ++ "/Documents/ProjectSuite/CreateProjectList/cache"),
   ("DB_PATH", home ++ "/Documents/ProjectSuite/ProjectManager/data/projects.db")]

/-- `PathRegistry.__init__` followed by `_register_default_paths`: the
fresh singleton state. -/
def initRegistry (sys : Sys) (appBase : String) (fs : FS) : RegState × FS :=
  (defaultEntries sys.home appBase).foldl
    (fun acc kv => register_path kv.1 kv.2 acc.1 acc.2)
    ({ paths := [], userPaths := [], config := none, settingsCache := []
     , appBasePath := appBase }, fs)

/-- One diagnostic finding.  Issue dicts in the source carry `"fixable"`
only when it is `True`; `issue.get("fixable", False)` is modelled by the
`fixable` field defaulting to `false`. -/
structure Issue where
  type : String
  key : String
  path : Option String
  severity : String
  fixable : Bool := false
  solution : String
  deriving Repr, DecidableEq

def missingKeyIssue (key : String) : Issue :=
  { type := "missing_key", key := key, path := none, severity := "high"
  , solution := key ++ "のパスが設定されていません。アプリケーションを再初期化してください。" }

def missingDirIssue (key p : String) : Issue :=
  { type := "missing_dir", key := key, path := some p, severity := "warning"
  , fixable := true
  , solution := "ディレクトリ " ++ p ++ " が存在しません。自動修復機能で作成できます。" }

def notDirIssue (key p : String) : Issue :=
  { type := "not_dir", key := key, path := some p, severity := "error"
  , solution := p ++ " はディレクトリではありません。別のパスを指定してください。" }

def dbParentIssue (parent : String) : Issue :=
  { type := "db_parent_missing", key := "DB_PATH", path := some parent
  , severity := "warning", fixable := true
  , solution := "データベースの親ディレクトリ " ++ parent ++ " が存在しません。自動修復機能で作成できます。" }

def projectsDirMissingIssue (p : String) : Issue :=
  { type := "projects_dir_missing", key := "PROJECTS_DIR", path := some p
  , severity := "warning", fixable := true
  , solution := "プロジェクトディレクトリ " ++ p ++ " が存在しません。自動修復機能で作成できます。" }

def permissionIssue (p : String) : Issue :=
  { type := "permission_error", key := "PROJECTS_DIR", path := some p
  , severity := "error"
  , solution := "プロジェクトディレクトリ " ++ p ++ " への書き込み権限がありません。" }

/-- The dict returned by `diagnose`. -/
structure DiagReport where
  issues : List Issue
  total_issues : Nat
  error_count : Nat
  warning_count : Nat
  deriving Repr, DecidableEq

/-- One iteration of `diagnose`'s essential-directory loop: a missing or
empty path is a `missing_key`, an absent path a fixable `missing_dir`, an
existing non-directory a `not_dir`. -/
def essentialCheck (sys : Sys) (acc : List Issue × RegState × FS) (key : String) :
    List Issue × RegState × FS :=
  let r := get_path sys key none acc.2.1 acc.2.2
  match r.1 with
  | none => (acc.1 ++ [missingKeyIssue key], r.2.1, r.2.2)
  | some p =>
    if p.isEmpty then (acc.1 ++ [missingKeyIssue key], r.2.1, r.2.2)
    else if !fsExistsB r.2.2 p then (acc.1 ++ [missingDirIssue key p], r.2.1, r.2.2)
    else if !isDirB r.2.2 p then (acc.1 ++ [notDirIssue key p], r.2.1, r.2.2)
    else (acc.1, r.2.1, r.2.2)

/-- `PathRegistry.diagnose`: essential-directory checks, the `DB_PATH`
parent check, and the `PROJECTS_DIR` existence / write-probe check.  The
write probe (`touch` then `unlink` of `.write_test`) is modelled by the
`writable` component of `FS`; the `validation_error` branch of the source
is unreachable in the model because no modelled operation raises. -/
def diagnose (sys : Sys) (st : RegState) (fs : FS) : DiagReport × RegState × FS :=
  let r1 := ["USER_DATA_DIR", "LOGS_DIR", "DATA_DIR", "PROJECTS_DIR"].foldl
    (essentialCheck sys) ([], st, fs)
  let r2 := get_path sys "DB_PATH" none r1.2.1 r1.2.2
  let issues2 :=
    match r2.1 with
    | some db =>
      if !db.isEmpty && !fsExistsB r2.2.2 (parentDir db) then
        r1.1 ++ [dbParentIssue (parentDir db)]
      else r1.1
    | none => r1.1
  let r3 := get_path sys "PROJECTS_DIR" none r2.2.1 r2.2.2
  let issues3 :=
    match r3.1 with
    | some p =>
      if p.isEmpty then issues2
      else if !fsExistsB r3.2.2 p then issues2 ++ [projectsDirMissingIssue p]
      else if r3.2.2.writable.contains p then issues2
      else issues2 ++ [permissionIssue p]
    | none => issues2
  ({ issues := issues3
   , total_issues := issues3.length
   , error_count := (issues3.filter (fun i => i.severity = "error")).length
   , warning_count := (issues3.filter (fun i => i.severity = "warning")).length }
  , r3.2.1, r3.2.2)

/-- An entry of `auto_repair`'s `repaired` list. -/
structure Repaired where
  key : String
  path : Option String
  action : String
  deriving Repr, DecidableEq

/-- An entry of `auto_repair`'s `failed` list. -/
structure Failed where
  key : String
  path : Option String
  reason : String
  deriving Repr, DecidableEq

/-- The duplicated `try: mkdir / except: failed.append` block of
`auto_repair`.  A `None` path makes `Path(None)` raise inside the `try`,
which the blanket `except` also converts into a `failed` entry. -/
def tryCreate (action reasonPrefix : String) (issue : Issue)
    (acc : List Repaired × List Failed × FS) : List Repaired × List Failed × FS :=
  match issue.path with
  | some p =>
    match mkdirP p acc.2.2 with
    | some fs' => (acc.1 ++ [{ key := issue.key, path := issue.path, action := action }], acc.2.1, fs')
    | none =>
      (acc.1
      , acc.2.1 ++ [{ key := issue.key, path := issue.path
                    , reason := reasonPrefix ++ ": mkdir error " ++ p }]
      , acc.2.2)
  | none =>
    (acc.1
    , acc.2.1 ++ [{ key := issue.key, path := none
                  , reason := reasonPrefix ++ ": TypeError" }]
    , acc.2.2)

/-- One iteration of `auto_repair`'s loop: only issues flagged `fixable`
and of one of the three directory types are acted on; everything else is
skipped without a trace. -/
def repairStep (acc : List Repaired × List Failed × FS) (issue : Issue) :
    List Repaired × List Failed × FS :=
  if issue.fixable then
    if issue.type = "missing_dir" then
      tryCreate "created_directory" "ディレクトリ作成失敗" issue acc
    else if issue.type = "db_parent_missing" then
      tryCreate "created_db_parent" "DBパス親ディレクトリ作成失敗" issue acc
    else if issue.type = "projects_dir_missing" then
      tryCreate "created_projects_dir" "プロジェクトディレクトリ作成失敗" issue acc
    else acc
  else acc

/-- `PathRegistry.auto_repair`: diagnose when no issue list is supplied,
then run the repair loop. -/
def auto_repair (sys : Sys) (issues? : Option (List Issue)) (st : RegState) (fs : FS) :
    (List Repaired × List Failed) × RegState × FS :=
  let start : List Issue × RegState × FS :=
    match issues? with
    | none =>
      let d := diagnose sys st fs
      (d.1.issues, d.2.1, d.2.2)
    | some is => (is, st, fs)
  let r := start.1.foldl repairStep ([], [], start.2.2)
  ((r.1, r.2.1), start.2.1, r.2.2)

/-- The legacy-key mapping table of `_normalize_legacy_key`. -/
def legacyKeyMap : List (String × String) :=
  [("project_dir", "PROJECTS_DIR"),
   ("output_dir", "PROJECTS_DIR"),
   ("template_dir", "TEMPLATES_DIR"),
   ("master_dir", "MASTER_DIR"),
   ("database_path", "DB_PATH"),
   ("log_dir", "LOGS_DIR"),
   ("data_dir", "DATA_DIR"),
   ("export_dir", "EXPORTS_DIR"),
   ("temp_dir", "TEMP_DIR")]

/-- `PathRegistry._normalize_legacy_key`: case-insensitive lookup in the
fixed table, `None` when unmapped. -/
def normalize_legacy_key (key : String) : Option String :=
  (legacyKeyMap.find? (fun kv => strToLower key == strToLower kv.1)).map (fun kv => kv.2)

/-- The result dict of `migrate_legacy_config`. -/
structure MigrationResult where
  migrated_paths : List String
  failed_paths : List String
  created_dirs : List String
  deriving Repr, DecidableEq

/-- `os.rename(old, new)` after removing an existing `new`. -/
def renameFile (old new : String) (fs : FS) : FS :=
  match fs.files.find? (fun e => e.1 == old) with
  | some entry =>
    { fs with files :=
        (fs.files.filter (fun e => e.1 ≠ old ∧ e.1 ≠ new)) ++ [(new, entry.2)] }
  | none => fs

/-- One line of the legacy-migration loop: malformed lines (no `=`) are
recorded in `failed_paths`; mapped keys are registered and recorded in
`migrated_paths`; keys `_normalize_legacy_key` cannot map produce no
record at all. -/
def migrateLine (acc : MigrationResult × RegState × FS) (line : String) :
    MigrationResult × RegState × FS :=
  let l := strTrim line
  if l.isEmpty || l.toList.head? == some '#' then acc
  else match splitEq l with
    | none =>
      ({ acc.1 with failed_paths := acc.1.failed_paths ++ ["Invalid format: " ++ l] }
      , acc.2.1, acc.2.2)
    | some kv =>
      match normalize_legacy_key kv.1 with
      | some nk =>
        let r := register_path nk kv.2 acc.2.1 acc.2.2
        ({ acc.1 with migrated_paths :=
             acc.1.migrated_paths ++ [kv.1 ++ " → " ++ nk ++ ": " ++ kv.2] }
        , r.1, r.2)
      | none => acc

/-- Processing of one legacy candidate file: read and migrate each line,
then rename the file to `<name>.bak`. -/
def migrateFile (acc : MigrationResult × RegState × FS) (path : String) :
    MigrationResult × RegState × FS :=
  match getFile acc.2.2 path with
  | none => acc
  | some lines =>
    let r := lines.foldl migrateLine acc
    (r.1, r.2.1, renameFile path (path ++ ".bak") r.2.2)

/-- The essential keys `migrate_legacy_config` ensures at the end. -/
def migrateEssentialDirs : List String :=
  ["USER_DATA_DIR", "LOGS_DIR", "DATA_DIR", "PROJECTS_DIR",
   "CPL_DIR", "CPL_CONFIG_DIR", "CPL_TEMP_DIR"]

/-- `PathRegistry.migrate_legacy_config`: process each existing legacy
file in order, then ensure the essential directories, recording the keys
whose `ensure_directory` succeeded. -/
def migrate_legacy_config (sys : Sys) (st : RegState) (fs : FS) :
    MigrationResult × RegState × FS :=
  let legacy : List String :=
    [sys.home ++ "/.projectsuite_paths.txt",
     st.appBasePath ++ "/paths.config",
     sys.home ++ "/Documents/ProjectManager/config.txt"]
  let r := legacy.foldl migrateFile
    ({ migrated_paths := [], failed_paths := [], created_dirs := [] }, st, fs)
  migrateEssentialDirs.foldl
    (fun acc key =>
      let e := ensure_directory sys key acc.2.1 acc.2.2
      if e.1 then
        ({ acc.1 with created_dirs := acc.1.created_dirs ++ [key] }, e.2.1, e.2.2)
      else (acc.1, e.2.1, e.2.2))
    r

/-- The JSON document written by `export_config` (the wall-clock timestamp
field is not modelled). -/
structure ExportData where
  paths : List (String × String)
  app_version : String := "1.0.0"
  deriving Repr, DecidableEq

/-- `PathRegistry.export_config`: the serialized snapshot of `_paths`.
The file write is modelled as always succeeding. -/
def export_config (st : RegState) : ExportData :=
  { paths := st.paths }

/-- `PathRegistry.import_config`: register every entry of the imported
`paths` dict, in order. -/
def import_config (data : ExportData) (st : RegState) (fs : FS) : RegState × FS :=
  data.paths.foldl (fun acc kv => register_path kv.1 kv.2 acc.1 acc.2) (st, fs)

/-- The named environment variables that map to specific registry keys
(the variables set in `ProjectManager/src/core/config.py`). -/
def specialEnvMap : List (String × String) :=
  [("PMSUITE_DASHBOARD_FILE", "DASHBOARD_EXPORT_FILE"),
   ("PMSUITE_DASHBOARD_DATA_DIR", "DASHBOARD_EXPORT_DIR"),
   ("PMSUITE_DB_PATH", "DB_PATH"),
   ("PMSUITE_DATA_DIR", "DATA_DIR")]

/-- Modelled from the spec: §4.2's EnvironmentOverlay key derivation,
which is not present under `src/` (only its consumers are): a variable
whose name carries the fixed prefix contributes the uppercased suffix as
the key, and a small fixed table maps the named special variables to
specific keys. -/
def overlayKey (name : String) : Option String :=
  if "APPSUITE_PATH_".toList.isPrefixOf name.toList then
    some (String.mk ((name.toList.drop 14).map Char.toUpper))
  else dictLookup name specialEnvMap

/-- Modelled from the spec: §4.2's EnvironmentOverlay, run once at boot
after config-file loading: every matching environment variable's raw
value is registered verbatim under its derived key. -/
def environmentOverlay (envVars : List (String × String)) (st : RegState) (fs : FS) :
    RegState × FS :=
  envVars.foldl
    (fun acc nv =>
      match overlayKey nv.1 with
      | some k => register_path k nv.2 acc.1 acc.2
      | none => acc)
    (st, fs)

/-! ## A heap model for the dict object returned by `get_all_paths`

Python dicts are heap objects; `get_all_paths` returns `self._paths.copy()`.
To state that the copy is fresh we model a heap of dict objects addressed
by `Nat` references, with the registry's `_paths` living at `pathsRef`. -/

/-- A heap of Python dict objects plus the registry's `_paths` reference;
`next` is the next unused address, so well-formed states satisfy
`pathsRef < next`. -/
structure HState where
  mem : Nat → List (String × String)
  next : Nat
  pathsRef : Nat

def updateMem (m : Nat → List (String × String)) (r : Nat)
    (d : List (String × String)) : Nat → List (String × String) :=
  fun i => if i = r then d else m i

/-- The registry's `_paths` content as seen through the heap. -/
def readStore (s : HState) : List (String × String) := s.mem s.pathsRef

/-- `get_all_paths` on the heap model: allocate a fresh dict holding a
copy of `_paths` and return its reference. -/
def get_all_paths_heap (s : HState) : Nat × HState :=
  (s.next,
   { s with
       mem := updateMem s.mem s.next (s.mem s.pathsRef)
       next := s.next + 1 })

/-- A caller-side mutation `d[k] = v` of the dict object at reference `r`. -/
def dict_set_item (r : Nat) (k v : String) (s : HState) : HState :=
  { s with mem := updateMem s.mem r (dictInsert k v (s.mem r)) }

/-! ## Definitions written from the spec's words, for comparison -/

/-- The resolution order exactly as the spec states it: (1) exact key;
(2) declared alias's entry if present; (3) for the projects keys, the
deferred custom-path lookup; (4) the caller default. -/
def get_path_claim_order (sys : Sys) (key : String) (default : Option String)
    (st : RegState) (fs : FS) : Option String :=
  match dictLookup key st.paths with
  | some p => some p
  | none =>
    match aliasLookup key st.paths with
    | some p => some p
    | none =>
      if key = "PROJECTS_DIR" ∨ key = "OUTPUT_BASE_DIR" then
        match (get_custom_projects_path sys st fs).1 with
        | some cp => some cp
        | none => default
      else default

/-- The resolution order as the source actually implements it: (1) exact
key; (2) for the projects keys, the deferred custom-path lookup; (3) the
alias's entry; (4) the caller default. -/
def get_path_amended_order (sys : Sys) (key : String) (default : Option String)
    (st : RegState) (fs : FS) : Option String :=
  match dictLookup key st.paths with
  | some p => some p
  | none =>
    if key = "PROJECTS_DIR" ∨ key = "OUTPUT_BASE_DIR" then
      match (get_custom_projects_path sys st fs).1 with
      | some cp => some cp
      | none =>
        match aliasLookup key st.paths with
        | some p => some p
        | none => default
    else
      match aliasLookup key st.paths with
      | some p => some p
      | none => default

/-! ## Per-issue outcome of the `auto_repair` loop (analysis definitions) -/

/-- The repair action and failure-message prefix `auto_repair` uses for
each of the three handled issue types. -/
def repairActionFor (t : String) : Option (String × String) :=
  if t = "missing_dir" then some ("created_directory", "ディレクトリ作成失敗")
  else if t = "db_parent_missing" then some ("created_db_parent", "DBパス親ディレクトリ作成失敗")
  else if t = "projects_dir_missing" then some ("created_projects_dir", "プロジェクトディレクトリ作成失敗")
  else none

/-- The failure condition of `mkdirP`. -/
def mkdirFailsB (fs : FS) (p : String) : Bool := fs.denied.contains p || isFileB fs p

/-- The `repaired` entry a single issue contributes, if any. -/
def repairedOutcome (fs : FS) (i : Issue) : Option Repaired :=
  if i.fixable then
    match repairActionFor i.type with
    | some ar =>
      match i.path with
      | some p =>
        if mkdirFailsB fs p then none
        else some { key := i.key, path := i.path, action := ar.1 }
      | none => none
    | none => none
  else none

/-- The `failed` entry a single issue contributes, if any. -/
def failedOutcome (fs : FS) (i : Issue) : Option Failed :=
  if i.fixable then
    match repairActionFor i.type with
    | some ar =>
      match i.path with
      | some p =>
        if mkdirFailsB fs p then
          some { key := i.key, path := i.path, reason := ar.2 ++ ": mkdir error " ++ p }
        else none
      | none => some { key := i.key, path := none, reason := ar.2 ++ ": TypeError" }
    | none => none
  else none

/-! ## Concrete sample states used by counterexamples and witnesses -/

def sampleSys : Sys := ⟨"/h"⟩

def emptyFS : FS := ⟨[], [], [], []⟩

def emptyReg : RegState := ⟨[], [], none, [], "/app"⟩

/-- A registry state in which `PROJECTS_DIR` is unregistered, its alias
holds `/alias`, and the loaded settings carry an existing custom projects
path `/custom`. -/
def stOrderCex : RegState :=
  ⟨[("OUTPUT_BASE_DIR", "/alias")], [], some [("custom_projects_dir", "/custom")], [], "/app"⟩

def fsOrderCex : FS := ⟨["/custom"], [], [], []⟩

/-- A filesystem holding the legacy flat file of the migration scenario. -/
def legacyFS : FS :=
  ⟨[], [("/h/.projectsuite_paths.txt", ["project_dir=/x/y", "bogus_key=1"])], [], []⟩

def migInit : RegState × FS := initRegistry sampleSys "/app" legacyFS

/-- The migration scenario of the spec, run on a freshly initialized
registry. -/
def migScenario : MigrationResult × RegState × FS :=
  migrate_legacy_config sampleSys migInit.1 migInit.2

/-- A diagnostic issue that is not flagged fixable. -/
def nonFixIssue : Issue := notDirIssue "PROJECTS_DIR" "/pr"

/-- A state with `PROJECTS_DIR` registered, for the diagnose witness. -/
def stDiagW : RegState := ⟨[("PROJECTS_DIR", "/pr")], [], none, [], "/app"⟩

def heapW : HState := ⟨fun _ => [("A", "/a")], 1, 0⟩

def dbDefault : String := "/h/Documents/Suite/data/projects.db"

/-- A filesystem on which creating `/d` fails. -/
def deniedFS : FS := ⟨[], [], ["/d"], []⟩

/-- A registry state whose `_paths` holds exactly the computed defaults. -/
def regDefaultsW : RegState := ⟨defaultEntries "/h" "/app", [], none, [], "/app"⟩

/-! ## Helper lemmas -/

theorem dictLookup_insert_self (k v : String) (d : List (String × String)) :
    dictLookup k (dictInsert k v d) = some v := by
  induction d with
  | nil => simp [dictInsert, dictLookup]
  | cons hd tl ih =>
    obtain ⟨k', v'⟩ := hd
    by_cases hk : k' = k
    · simp [dictInsert, dictLookup, hk]
    · simp [dictInsert, dictLookup, hk, ih]

theorem dictLookup_insert_ne (k k' v : String) (d : List (String × String)) (h : k' ≠ k) :
    dictLookup k (dictInsert k' v d) = dictLookup k d := by
  induction d with
  | nil => simp [dictInsert, dictLookup, h]
  | cons hd tl ih =>
    obtain ⟨k'', v''⟩ := hd
    by_cases hk : k'' = k'
    · subst hk
      simp [dictInsert, dictLookup, h]
    · by_cases hk2 : k'' = k
      · subst hk2
        have hne : ¬(k'' = k') := hk
        simp [dictInsert, dictLookup, hne]
      · simp [dictInsert, dictLookup, hk, hk2, ih]

theorem dictLookup_none_of_not_mem (k : String) (d : List (String × String))
    (h : k ∉ d.map Prod.fst) : dictLookup k d = none := by
  induction d with
  | nil => rfl
  | cons hd tl ih =>
    obtain ⟨k', v'⟩ := hd
    simp only [List.map_cons, List.mem_cons] at h
    push_neg at h
    simp [dictLookup, ih h.2, Ne.symm h.1]

/-- Rebuild a triple from component equalities (`Prod` eta). -/
theorem triple_eta {α β γ : Type} (x : α × β × γ) (b : β) (c : γ)
    (hb : x.2.1 = b) (hc : x.2.2 = c) : x = (x.1, b, c) := by
  rw [← hb, ← hc]

theorem register_path_paths (k p : String) (st : RegState) (fs : FS) :
    ((register_path k p st fs).1).paths = dictInsert k p st.paths := by
  simp only [register_path]
  split
  · split <;> rfl
  · rfl

theorem get_path_of_mem (sys : Sys) (key : String) (d : Option String)
    (st : RegState) (fs : FS) (p : String) (h : dictLookup key st.paths = some p) :
    get_path sys key d st fs = (some p, st, fs) := by
  unfold get_path
  rw [h]

theorem get_path_state (sys : Sys) (key : String) (d : Option String)
    (st : RegState) (fs : FS)
    (h : ¬(key = "PROJECTS_DIR" ∨ key = "OUTPUT_BASE_DIR")
         ∨ (dictLookup key st.paths).isSome = true) :
    get_path sys key d st fs = ((get_path sys key d st fs).1, st, fs) := by
  rcases h with h | h
  · unfold get_path
    rcases hl : dictLookup key st.paths with _ | p
    · rw [if_neg h]
      rcases ha : aliasLookup key st.paths with _ | q <;> rfl
    · rfl
  · obtain ⟨p, hp⟩ := Option.isSome_iff_exists.mp h
    rw [get_path_of_mem sys key d st fs p hp]

/-- `_load_config` never touches `_paths`. -/
theorem load_config_paths (sys : Sys) (st : RegState) (fs : FS) :
    ((load_config sys st fs).2).paths = st.paths := by
  unfold load_config
  repeat' split
  all_goals rfl

/-- The config-loading step never touches `_paths`. -/
theorem loadedConfig_paths (sys : Sys) (st : RegState) (fs : FS) :
    ((loadedConfig sys st fs).2).paths = st.paths := by
  unfold loadedConfig
  split
  · split
    · exact load_config_paths sys st fs
    · rfl
  · exact load_config_paths sys st fs

/-- `get_custom_projects_path` never touches `_paths`. -/
theorem get_custom_paths_preserved (sys : Sys) (st : RegState) (fs : FS) :
    ((get_custom_projects_path sys st fs).2).paths = st.paths := by
  unfold get_custom_projects_path
  split
  · split <;> exact loadedConfig_paths sys st fs
  · exact loadedConfig_paths sys st fs

/-- Shared: a `get_path` immediately after `register_path` of the same key
returns exactly the registered value. -/
theorem get_path_register_self (sys : Sys) (k p : String) (d : Option String)
    (st : RegState) (fs : FS) :
    (get_path sys k d (register_path k p st fs).1 (register_path k p st fs).2).1 = some p := by
  have h : dictLookup k ((register_path k p st fs).1).paths = some p := by
    rw [register_path_paths]
    exact dictLookup_insert_self k p st.paths
  rw [get_path_of_mem sys k d _ _ p h]

/-! ## Claim C1 -/

/-- C1 counterexample: `register_path("foo", "/p")` does **not** store the
entry under the uppercase-normalized key `"FOO"`; it stores it under the
key exactly as given. -/
theorem register_no_uppercase_cex :
    dictLookup "FOO" ((register_path "foo" "/p" emptyReg emptyFS).1.paths) = none
    ∧ dictLookup "foo" ((register_path "foo" "/p" emptyReg emptyFS).1.paths) = some "/p" := by
  decide

/-- C1 (amended): for every key `k` and path `p`, `register_path(k, p)`
stores the entry under exactly `k` (no uppercase normalization), and an
immediately following `get_path(k)` returns exactly `p` (no
normalization of the path). -/
theorem register_get_path_exact (sys : Sys) (k p : String) (d : Option String)
    (st : RegState) (fs : FS) :
    dictLookup k ((register_path k p st fs).1).paths = some p
    ∧ (get_path sys k d (register_path k p st fs).1 (register_path k p st fs).2).1 = some p := by
  constructor
  · rw [register_path_paths]
    exact dictLookup_insert_self k p st.paths
  · exact get_path_register_self sys k p d st fs

/-! ## Claim C2 -/

/-- C2 counterexample: with `PROJECTS_DIR` unregistered, its alias
`OUTPUT_BASE_DIR` bound to `/alias`, and an existing custom projects path
`/custom` in the settings, the source's `get_path` returns the custom
path while the claim's stated order (alias before custom lookup) would
return the alias's entry. -/
theorem get_path_order_cex :
    (get_path sampleSys "PROJECTS_DIR" none stOrderCex fsOrderCex).1 = some "/custom"
    ∧ get_path_claim_order sampleSys "PROJECTS_DIR" none stOrderCex fsOrderCex = some "/alias"
    ∧ (some "/custom" : Option String) ≠ some "/alias" := by
  decide

/-- C2 (amended): `get_path` resolves in the order (1) exact key;
(2) for the projects keys, the deferred custom-path lookup from persisted
settings; (3) the declared alias's entry; (4) the caller default — i.e.
the custom-path step precedes the alias step.  It is a total function
(never raises) and yields the default only when the earlier steps fail. -/
theorem get_path_resolution_order (sys : Sys) (key : String) (d : Option String)
    (st : RegState) (fs : FS) :
    (get_path sys key d st fs).1 = get_path_amended_order sys key d st fs := by
  unfold get_path get_path_amended_order
  rcases hl : dictLookup key st.paths with _ | p
  · by_cases hk : key = "PROJECTS_DIR" ∨ key = "OUTPUT_BASE_DIR"
    · simp only [if_pos hk]
      rcases hg : get_custom_projects_path sys st fs with ⟨o, st'⟩
      have hps : st'.paths = st.paths := by
        have h := get_custom_paths_preserved sys st fs
        rw [hg] at h
        exact h
      rcases o with _ | cp
      · simp only [hps]
        rcases ha : aliasLookup key st.paths with _ | q <;> rfl
      · rfl
    · simp only [if_neg hk]
      rcases ha : aliasLookup key st.paths with _ | q <;> rfl
  · rfl

/-! ## Claim C3 -/

/-- C3: when the same key is written by the computed default, then by the
config file, and the environment overlay then runs with a matching
variable, `get_path` returns the environment value — the last
registration wins.  (The overlay itself is modelled from §4.2 of the
spec; see `environmentOverlay`.) -/
theorem env_overlay_wins (sys : Sys) (st : RegState) (fs : FS)
    (n k dflt cfgv v : String) (h : overlayKey n = some k) :
    (let s1 := register_path k dflt st fs
     let s2 := register_path k cfgv s1.1 s1.2
     let s3 := environmentOverlay [(n, v)] s2.1 s2.2
     (get_path sys k none s3.1 s3.2).1) = some v := by
  have hov : ∀ (st0 : RegState) (fs0 : FS),
      environmentOverlay [(n, v)] st0 fs0 = register_path k v st0 fs0 := by
    intro st0 fs0
    simp [environmentOverlay, h]
  simp only [hov]
  exact get_path_register_self sys k v none _ _

/-- C3 witness at the concrete special variable `PMSUITE_DB_PATH`. -/
theorem env_overlay_wins_witness :
    overlayKey "PMSUITE_DB_PATH" = some "DB_PATH"
    ∧ (let s1 := register_path "DB_PATH" "/d1" emptyReg emptyFS
       let s2 := register_path "DB_PATH" "/d2" s1.1 s1.2
       let s3 := environmentOverlay [("PMSUITE_DB_PATH", "/env")] s2.1 s2.2
       (get_path sampleSys "DB_PATH" none s3.1 s3.2).1) = some "/env" :=
  ⟨by decide,
   env_overlay_wins sampleSys emptyReg emptyFS "PMSUITE_DB_PATH" "DB_PATH"
     "/d1" "/d2" "/env" (by decide)⟩

/-! ## Claim C8 -/

/-- C8 counterexample: with `DB_PATH` unregistered and its default's
parent directory absent, `get_path("DB_PATH")` returns the default with
the registry and the filesystem completely unchanged — it does **not**
create the missing parent directory. -/
theorem get_path_db_no_creation_cex :
    get_path sampleSys "DB_PATH" (some dbDefault) emptyReg emptyFS
      = (some dbDefault, emptyReg, emptyFS)
    ∧ fsExistsB emptyFS (parentDir dbDefault) = false := by
  decide

/-- C8 (amended): `get_path` on `DB_PATH` performs no filesystem
operation at all — it returns the stored path, or the caller default when
the key is unregistered, with the filesystem untouched; the parent
directory of the database path is created only by `auto_repair` acting on
a `db_parent_missing` issue, and that repair creates the parent directory
only, never the database file (the `files` component is unchanged). -/
theorem get_path_db_no_heal (sys : Sys) (st : RegState) (fs : FS)
    (d : Option String) (p : String)
    (h1 : fs.denied.contains p = false) (h2 : isFileB fs p = false) :
    (get_path sys "DB_PATH" d st fs).2.2 = fs
    ∧ (get_path sys "DB_PATH" d st fs).1
        = (match dictLookup "DB_PATH" st.paths with
           | some q => some q
           | none => d)
    ∧ auto_repair sys (some [dbParentIssue p]) st fs
        = (([{ key := "DB_PATH", path := some p, action := "created_db_parent" }], []),
           st, { fs with dirs := insertSet p fs.dirs }) := by
  have hgp := get_path_state sys "DB_PATH" d st fs (Or.inl (by decide))
  refine ⟨by rw [hgp], ?_, ?_⟩
  · unfold get_path
    rcases hl : dictLookup "DB_PATH" st.paths with _ | q
    · rw [if_neg (by decide)]
      rfl
    · rfl
  · have h1' : ¬ p ∈ fs.denied := by simpa using h1
    simp [auto_repair, repairStep, dbParentIssue, tryCreate, mkdirP, h1', h2]

/-- C8 witness at a concrete empty registry and filesystem. -/
theorem get_path_db_no_heal_witness :
    (emptyFS.denied.contains "/h/data" = false)
    ∧ (get_path sampleSys "DB_PATH" (some dbDefault) emptyReg emptyFS).2.2 = emptyFS :=
  ⟨by decide,
   (get_path_db_no_heal sampleSys emptyReg emptyFS (some dbDefault) "/h/data"
      (by decide) (by decide)).1⟩

/-! ## Claim C9 -/

/-- C9: `get_all_paths` returns a fresh copy: mutating the dict object it
returns leaves the registry's own `_paths` dict untouched, so no later
`get_path` or `get_all_paths` result changes. -/
theorem get_all_paths_copy_isolated (s : HState) (k v : String)
    (h : s.pathsRef < s.next) :
    readStore (dict_set_item (get_all_paths_heap s).1 k v (get_all_paths_heap s).2)
      = readStore s
    ∧ ∀ (sys : Sys) (key : String) (d : Option String) (rest : RegState) (fs : FS),
        get_path sys key d
          { rest with paths :=
              readStore (dict_set_item (get_all_paths_heap s).1 k v (get_all_paths_heap s).2) } fs
        = get_path sys key d { rest with paths := readStore s } fs := by
  have hne : s.pathsRef ≠ s.next := Nat.ne_of_lt h
  have hmain : readStore (dict_set_item (get_all_paths_heap s).1 k v (get_all_paths_heap s).2)
      = readStore s := by
    simp [readStore, dict_set_item, get_all_paths_heap, updateMem, hne]
  exact ⟨hmain, fun sys key d rest fs => by rw [hmain]⟩

/-- C9 witness on a one-dict heap. -/
theorem get_all_paths_copy_isolated_witness :
    heapW.pathsRef < heapW.next
    ∧ readStore (dict_set_item (get_all_paths_heap heapW).1 "B" "/b"
        (get_all_paths_heap heapW).2) = readStore heapW :=
  ⟨by decide, (get_all_paths_copy_isolated heapW "B" "/b" (by decide)).1⟩

/-! ## Claim C10 -/

/-- C10: `register_path` is total (never raises): the entry is stored in
`_paths` unconditionally; for non-directory keys the filesystem is left
untouched; for `*_DIR`/`*_FOLDER` keys a failing directory creation is
swallowed (the filesystem is unchanged and the entry is still stored),
while a successful creation applies exactly the `mkdir`. -/
theorem register_path_total_stores (k p : String) (st : RegState) (fs : FS) :
    dictLookup k ((register_path k p st fs).1.paths) = some p
    ∧ ((strEndsWith k "_DIR" || strEndsWith k "_FOLDER") = false
        → (register_path k p st fs).2 = fs)
    ∧ (mkdirP p fs = none → (register_path k p st fs).2 = fs)
    ∧ (∀ fs', (strEndsWith k "_DIR" || strEndsWith k "_FOLDER") = true
        → mkdirP p fs = some fs' → (register_path k p st fs).2 = fs') := by
  refine ⟨?_, ?_, ?_, ?_⟩
  · rw [register_path_paths]
    exact dictLookup_insert_self k p st.paths
  · intro h
    simp [register_path, h]
  · intro h
    unfold register_path
    split
    · rw [h]
    · rfl
  · intro fs' hb hm
    simp [register_path, hb, hm]

/-- C10 witness: a directory key whose creation is denied still gets its
entry stored, and the filesystem stays unchanged. -/
theorem register_path_total_stores_witness :
    dictLookup "X_DIR" ((register_path "X_DIR" "/d" emptyReg deniedFS).1.paths) = some "/d"
    ∧ (register_path "X_DIR" "/d" emptyReg deniedFS).2 = deniedFS :=
  ⟨(register_path_total_stores "X_DIR" "/d" emptyReg deniedFS).1,
   (register_path_total_stores "X_DIR" "/d" emptyReg deniedFS).2.2.1 (by decide)⟩

/-! ## Claim C5 -/

set_option maxRecDepth 100000 in
/-- C5 counterexample: migrating a legacy file containing
`project_dir=/x/y` and `bogus_key=1` produces a result whose
`failed_paths` is empty and whose `migrated_paths` is exactly the
`project_dir` record — `bogus_key` is **not** reported as unmapped
anywhere in the result; it is dropped silently. -/
theorem migrate_unmapped_silent_cex :
    migScenario.1.failed_paths = []
    ∧ migScenario.1.migrated_paths = ["project_dir → PROJECTS_DIR: /x/y"] := by
  decide

set_option maxRecDepth 100000 in
/-- C5 (amended): on the scenario's legacy file, migration registers
`PROJECTS_DIR = /x/y` and renames the legacy file to `<name>.bak`
(the original disappears, the backup holds its content), but the
unmapped `bogus_key` entry is silently skipped: it appears in neither
`migrated_paths` nor `failed_paths`. -/
theorem migrate_scenario_amended :
    dictLookup "PROJECTS_DIR" migScenario.2.1.paths = some "/x/y"
    ∧ getFile migScenario.2.2 "/h/.projectsuite_paths.txt" = none
    ∧ getFile migScenario.2.2 "/h/.projectsuite_paths.txt.bak"
        = some ["project_dir=/x/y", "bogus_key=1"]
    ∧ migScenario.1.failed_paths = []
    ∧ migScenario.1.migrated_paths = ["project_dir → PROJECTS_DIR: /x/y"] := by
  decide

/-! ## Claim C6 -/

/-- The `tryCreate` block, rephrased with the explicit failure
condition. -/
theorem tryCreate_eq (action pre : String) (i : Issue)
    (acc : List Repaired × List Failed × FS) :
    tryCreate action pre i acc =
      (match i.path with
       | some p =>
         if mkdirFailsB acc.2.2 p then
           (acc.1,
            acc.2.1 ++ [{ key := i.key, path := i.path
                        , reason := pre ++ ": mkdir error " ++ p }],
            acc.2.2)
         else
           (acc.1 ++ [{ key := i.key, path := i.path, action := action }], acc.2.1,
            { acc.2.2 with dirs := insertSet p acc.2.2.dirs })
       | none =>
         (acc.1,
          acc.2.1 ++ [{ key := i.key, path := none, reason := pre ++ ": TypeError" }],
          acc.2.2)) := by
  unfold tryCreate mkdirP mkdirFailsB
  rcases hp : i.path with _ | p
  · rfl
  · dsimp only
    split_ifs with hm <;> rfl

theorem repairStep_fst (acc : List Repaired × List Failed × FS) (i : Issue) :
    (repairStep acc i).1 = acc.1 ++ (repairedOutcome acc.2.2 i).toList := by
  by_cases hf : i.fixable
  · simp only [repairStep, repairedOutcome, repairActionFor, hf, if_true, tryCreate_eq]
    split_ifs with h1 h2 h3
    · rcases hp : i.path with _ | p
      · simp
      · dsimp only
        split_ifs with hm <;> simp
    · rcases hp : i.path with _ | p
      · simp
      · dsimp only
        split_ifs with hm <;> simp
    · rcases hp : i.path with _ | p
      · simp
      · dsimp only
        split_ifs with hm <;> simp
    · simp
  · simp [repairStep, repairedOutcome, hf]

theorem repairStep_snd (acc : List Repaired × List Failed × FS) (i : Issue) :
    (repairStep acc i).2.1 = acc.2.1 ++ (failedOutcome acc.2.2 i).toList := by
  by_cases hf : i.fixable
  · simp only [repairStep, failedOutcome, repairActionFor, hf, if_true, tryCreate_eq]
    split_ifs with h1 h2 h3
    · rcases hp : i.path with _ | p
      · simp
      · dsimp only
        split_ifs with hm <;> simp
    · rcases hp : i.path with _ | p
      · simp
      · dsimp only
        split_ifs with hm <;> simp
    · rcases hp : i.path with _ | p
      · simp
      · dsimp only
        split_ifs with hm <;> simp
    · simp
  · simp [repairStep, failedOutcome, hf]

theorem repairStep_fs (acc : List Repaired × List Failed × FS) (i : Issue) :
    (repairStep acc i).2.2.denied = acc.2.2.denied
    ∧ (repairStep acc i).2.2.files = acc.2.2.files := by
  by_cases hf : i.fixable
  · simp only [repairStep, hf, if_true, tryCreate_eq]
    split_ifs with h1 h2 h3
    · rcases hp : i.path with _ | p
      · exact ⟨rfl, rfl⟩
      · dsimp only
        split_ifs with hm
        · exact ⟨rfl, rfl⟩
        · exact ⟨rfl, rfl⟩
    · rcases hp : i.path with _ | p
      · exact ⟨rfl, rfl⟩
      · dsimp only
        split_ifs with hm
        · exact ⟨rfl, rfl⟩
        · exact ⟨rfl, rfl⟩
    · rcases hp : i.path with _ | p
      · exact ⟨rfl, rfl⟩
      · dsimp only
        split_ifs with hm
        · exact ⟨rfl, rfl⟩
        · exact ⟨rfl, rfl⟩
    · exact ⟨rfl, rfl⟩
  · simp [repairStep, hf]

theorem outcome_congr (fs fs' : FS) (hd : fs'.denied = fs.denied)
    (hf : fs'.files = fs.files) :
    repairedOutcome fs' = repairedOutcome fs ∧ failedOutcome fs' = failedOutcome fs := by
  constructor <;> funext i <;>
    rcases ha : repairActionFor i.type with _ | ar <;>
    rcases hp : i.path with _ | p <;>
    simp only [repairedOutcome, failedOutcome, mkdirFailsB, isFileB, ha, hp] <;>
    rw [hd, hf]

theorem repairFold (l : List Issue) (r0 : List Repaired) (f0 : List Failed) (fs : FS) :
    (l.foldl repairStep (r0, f0, fs)).1 = r0 ++ l.filterMap (repairedOutcome fs)
    ∧ (l.foldl repairStep (r0, f0, fs)).2.1 = f0 ++ l.filterMap (failedOutcome fs)
    ∧ (l.foldl repairStep (r0, f0, fs)).2.2.denied = fs.denied
    ∧ (l.foldl repairStep (r0, f0, fs)).2.2.files = fs.files := by
  induction l generalizing r0 f0 fs with
  | nil => simp
  | cons i rest ih =>
    rw [List.foldl_cons]
    have ha1 := repairStep_fst (r0, f0, fs) i
    have ha2 := repairStep_snd (r0, f0, fs) i
    have hafs := repairStep_fs (r0, f0, fs) i
    have hih := ih (repairStep (r0, f0, fs) i).1 (repairStep (r0, f0, fs) i).2.1
      (repairStep (r0, f0, fs) i).2.2
    simp only [Prod.mk.eta] at hih
    obtain ⟨hi1, hi2, hi3, hi4⟩ := hih
    have hco := outcome_congr fs (repairStep (r0, f0, fs) i).2.2 hafs.1 hafs.2
    refine ⟨?_, ?_, ?_, ?_⟩
    · rw [hi1, ha1, hco.1, List.filterMap_cons]
      cases repairedOutcome fs i <;> simp
    · rw [hi2, ha2, hco.2, List.filterMap_cons]
      cases failedOutcome fs i <;> simp
    · rw [hi3, hafs.1]
    · rw [hi4, hafs.2]

/-- C6 counterexample: an issue that is not flagged fixable appears in
**neither** the `repaired` nor the `failed` part of `auto_repair`'s
result — it is silently dropped, not reported as failed. -/
theorem auto_repair_nonfixable_dropped_cex :
    nonFixIssue.fixable = false
    ∧ auto_repair sampleSys (some [nonFixIssue]) emptyReg emptyFS
        = (([], []), emptyReg, emptyFS) := by
  decide

/-- C6 (amended): `auto_repair` accounts for exactly the issues that are
flagged fixable and of one of the three handled directory types — each
such issue lands in `repaired` or (on a creation failure, with a
human-readable reason) in `failed`; every other issue, in particular
every non-fixable one, contributes to neither list. -/
theorem auto_repair_accounts (sys : Sys) (issues : List Issue)
    (st : RegState) (fs : FS) :
    (auto_repair sys (some issues) st fs).1.1 = issues.filterMap (repairedOutcome fs)
    ∧ (auto_repair sys (some issues) st fs).1.2 = issues.filterMap (failedOutcome fs)
    ∧ ∀ i : Issue, i.fixable = false
        → repairedOutcome fs i = none ∧ failedOutcome fs i = none := by
  have hf := repairFold issues [] [] fs
  refine ⟨?_, ?_, ?_⟩
  · simpa [auto_repair] using hf.1
  · simpa [auto_repair] using hf.2.1
  · intro i hi
    simp [repairedOutcome, failedOutcome, hi]

/-- C6 witness: concrete instantiation of the accounting theorem. -/
theorem auto_repair_accounts_witness :
    (auto_repair sampleSys (some [nonFixIssue, dbParentIssue "/par"]) emptyReg emptyFS).1.1
      = [nonFixIssue, dbParentIssue "/par"].filterMap (repairedOutcome emptyFS)
    ∧ (auto_repair sampleSys (some [nonFixIssue, dbParentIssue "/par"]) emptyReg emptyFS).1.2
      = [nonFixIssue, dbParentIssue "/par"].filterMap (failedOutcome emptyFS) :=
  ⟨(auto_repair_accounts sampleSys [nonFixIssue, dbParentIssue "/par"] emptyReg emptyFS).1,
   (auto_repair_accounts sampleSys [nonFixIssue, dbParentIssue "/par"] emptyReg emptyFS).2.1⟩

/-! ## Claim C4 -/

theorem essentialCheck_state (sys : Sys) (is : List Issue) (st : RegState) (fs : FS)
    (key : String)
    (h : ¬(key = "PROJECTS_DIR" ∨ key = "OUTPUT_BASE_DIR")
         ∨ (dictLookup key st.paths).isSome = true) :
    essentialCheck sys (is, st, fs) key = ((essentialCheck sys (is, st, fs) key).1, st, fs) := by
  have hg := get_path_state sys key none st fs h
  unfold essentialCheck
  dsimp only
  rw [hg]
  rcases hval : (get_path sys key none st fs).1 with _ | p
  · rfl
  · dsimp only
    split_ifs <;> rfl

theorem foldl_essentialCheck_state (sys : Sys) (keys : List String) (is : List Issue)
    (st : RegState) (fs : FS)
    (h : ∀ k ∈ keys, ¬(k = "PROJECTS_DIR" ∨ k = "OUTPUT_BASE_DIR")
         ∨ (dictLookup k st.paths).isSome = true) :
    (keys.foldl (essentialCheck sys) (is, st, fs)).2 = (st, fs) := by
  induction keys generalizing is with
  | nil => rfl
  | cons k rest ih =>
    rw [List.foldl_cons, essentialCheck_state sys is st fs k (h k (by simp))]
    exact ih _ (fun k' hk' => h k' (by simp [hk']))

/-- With `PROJECTS_DIR` registered (an invariant of every state the class
can construct), `diagnose` leaves the registry state and the filesystem
untouched. -/
theorem diagnose_state (sys : Sys) (st : RegState) (fs : FS)
    (h : (dictLookup "PROJECTS_DIR" st.paths).isSome = true) :
    (diagnose sys st fs).2 = (st, fs) := by
  have hkeys : ∀ k ∈ (["USER_DATA_DIR", "LOGS_DIR", "DATA_DIR", "PROJECTS_DIR"] : List String),
      ¬(k = "PROJECTS_DIR" ∨ k = "OUTPUT_BASE_DIR")
      ∨ (dictLookup k st.paths).isSome = true := by
    intro k hk
    simp only [List.mem_cons, List.not_mem_nil, or_false] at hk
    rcases hk with rfl | rfl | rfl | rfl
    · exact Or.inl (by decide)
    · exact Or.inl (by decide)
    · exact Or.inl (by decide)
    · exact Or.inr h
  have hfold := foldl_essentialCheck_state sys
    ["USER_DATA_DIR", "LOGS_DIR", "DATA_DIR", "PROJECTS_DIR"] [] st fs hkeys
  have hfold1 : ((["USER_DATA_DIR", "LOGS_DIR", "DATA_DIR", "PROJECTS_DIR"].foldl
      (essentialCheck sys) ([], st, fs)).2.1) = st := by rw [hfold]
  have hfold2 : ((["USER_DATA_DIR", "LOGS_DIR", "DATA_DIR", "PROJECTS_DIR"].foldl
      (essentialCheck sys) ([], st, fs)).2.2) = fs := by rw [hfold]
  have hdb := get_path_state sys "DB_PATH" none st fs (Or.inl (by decide))
  have hpr := get_path_state sys "PROJECTS_DIR" none st fs (Or.inr h)
  unfold diagnose
  dsimp only
  rw [hfold1, hfold2, hdb]
  dsimp only
  rw [hpr]

/-- C4: with `PROJECTS_DIR` registered — an invariant established by
`__init__`'s default registration and preserved by every operation, since
entries are only ever overwritten, never removed — `diagnose` is
side-effect-free on the registry and idempotent: it returns the state and
filesystem unchanged, a second consecutive call yields the identical
issue list, and `get_all_paths` is the same before and after. -/
theorem diagnose_pure_idempotent (sys : Sys) (st : RegState) (fs : FS)
    (h : (dictLookup "PROJECTS_DIR" st.paths).isSome = true) :
    (diagnose sys st fs).2 = (st, fs)
    ∧ (diagnose sys (diagnose sys st fs).2.1 (diagnose sys st fs).2.2).1.issues
        = (diagnose sys st fs).1.issues
    ∧ get_all_paths (diagnose sys st fs).2.1 = get_all_paths st := by
  have hs := diagnose_state sys st fs h
  have h1 : (diagnose sys st fs).2.1 = st := by rw [hs]
  have h2 : (diagnose sys st fs).2.2 = fs := by rw [hs]
  exact ⟨hs, by rw [h1, h2], by rw [h1]⟩

/-- C4 witness at a concrete state with `PROJECTS_DIR` registered. -/
theorem diagnose_pure_idempotent_witness :
    (dictLookup "PROJECTS_DIR" stDiagW.paths).isSome = true
    ∧ (diagnose sampleSys stDiagW emptyFS).2 = (stDiagW, emptyFS) :=
  ⟨by decide, (diagnose_pure_idempotent sampleSys stDiagW emptyFS (by decide)).1⟩

/-! ## Claim C7 -/

theorem foldl_register_lookup (l : List (String × String)) (st : RegState) (fs : FS)
    (hnd : (l.map Prod.fst).Nodup) (k : String) :
    dictLookup k ((l.foldl (fun acc kv => register_path kv.1 kv.2 acc.1 acc.2) (st, fs)).1.paths)
      = (match dictLookup k l with
         | some v => some v
         | none => dictLookup k st.paths) := by
  induction l generalizing st fs with
  | nil => rfl
  | cons kv rest ih =>
    obtain ⟨k0, v0⟩ := kv
    simp only [List.map_cons, List.nodup_cons] at hnd
    obtain ⟨hk0, hnd'⟩ := hnd
    rw [List.foldl_cons]
    have hstep := ih (register_path k0 v0 st fs).1 (register_path k0 v0 st fs).2 hnd'
    rw [Prod.mk.eta] at hstep
    rw [hstep]
    by_cases hk : k0 = k
    · subst hk
      have hr : dictLookup k0 rest = none :=
        dictLookup_none_of_not_mem k0 rest hk0
      rw [hr]
      dsimp only
      rw [register_path_paths, dictLookup_insert_self]
      simp [dictLookup]
    · have hcons : dictLookup k ((k0, v0) :: rest) = dictLookup k rest := by
        simp [dictLookup, hk]
      rw [hcons, register_path_paths, dictLookup_insert_ne _ _ _ _ hk]

theorem defaultKeys_eq (home appBase : String) :
    (defaultEntries home appBase).map Prod.fst =
      ["ROOT", "USER_DATA_DIR", "LOGS_DIR", "DATA_DIR", "EXPORTS_DIR", "TEMPLATES_DIR",
       "PROJECTS_DIR", "OUTPUT_BASE_DIR", "MASTER_DIR", "TEMP_DIR", "BACKUP_DIR",
       "CPL_DIR", "CPL_CONFIG_DIR", "CPL_TEMP_DIR", "CPL_TEMPLATES_DIR", "CPL_CACHE_DIR",
       "DB_PATH"] := rfl

theorem defaultKeys_nodup (home appBase : String) :
    ((defaultEntries home appBase).map Prod.fst).Nodup := by
  rw [defaultKeys_eq]
  decide

/-- Resolution in a freshly initialized registry is lookup in the default
entry table. -/
theorem initRegistry_lookup (sys : Sys) (appBase : String) (fs : FS) (k : String) :
    dictLookup k ((initRegistry sys appBase fs).1.paths)
      = dictLookup k (defaultEntries sys.home appBase) := by
  unfold initRegistry
  rw [foldl_register_lookup _ _ _ (defaultKeys_nodup sys.home appBase) k]
  rcases hd : dictLookup k (defaultEntries sys.home appBase) with _ | v <;> rfl

/-- C7: export followed by import into a fresh registry of the same
environment reproduces the key→path mapping: for every state whose
`_paths` has no duplicate keys and still contains every default key (both
invariants of the class, whose dict never drops entries), every lookup in
the reconstructed registry agrees with the original. -/
theorem export_import_roundtrip (sys : Sys) (appBase : String) (st : RegState)
    (fs2 : FS)
    (hnd : (st.paths.map Prod.fst).Nodup)
    (hsup : ∀ k2 : String, (dictLookup k2 (defaultEntries sys.home appBase)).isSome = true
        → (dictLookup k2 st.paths).isSome = true) :
    ∀ k : String,
      dictLookup k ((import_config (export_config st)
          (initRegistry sys appBase fs2).1 (initRegistry sys appBase fs2).2).1.paths)
        = dictLookup k st.paths := by
  intro k
  unfold import_config export_config
  dsimp only
  rw [foldl_register_lookup _ _ _ hnd k]
  rcases hd : dictLookup k st.paths with _ | v
  · dsimp only
    rw [initRegistry_lookup]
    rcases hi : dictLookup k (defaultEntries sys.home appBase) with _ | w
    · rfl
    · exfalso
      have hcontra := hsup k (by rw [hi]; rfl)
      rw [hd] at hcontra
      simp at hcontra
  · rfl

/-- C7 witness: round-trip of the default registry state. -/
theorem export_import_roundtrip_witness :
    dictLookup "DB_PATH" ((import_config (export_config regDefaultsW)
        (initRegistry sampleSys "/app" emptyFS).1
        (initRegistry sampleSys "/app" emptyFS).2).1.paths)
      = dictLookup "DB_PATH" regDefaultsW.paths :=
  export_import_roundtrip sampleSys "/app" regDefaultsW emptyFS
    (defaultKeys_nodup "/h" "/app") (fun _ h => h) "DB_PATH"

end PathReg
